import Mathlib

/-!
Verification development for the invoice response normalizer of
`src/Invoices/utilities.py` (function `create_invoice_summary_tables`,
helper `safe_get`).  The Python code is shallowly embedded: Python
values flowing through the normalizer are modelled by the inductive
type `Val`, the dynamically typed first argument by `PyRes`, and the
Python exceptions the function can raise by `PErr`.  Fallible steps
return `Except PErr`.  Rows are association lists from column names to
values, in the order the source builds them.
-/

namespace Ade

/-- Python values reachable by the normalizer: `None`, strings,
numbers, lists, mappings (which, as instances of `dict` subclasses,
may additionally carry attributes), and plain attribute-bearing
objects.  A mapping is an association list of entries (first match
wins, mirroring key lookup in a `dict` whose items are listed in
insertion order with distinct keys). -/
inductive Val : Type
  | none
  | str (s : String)
  | num (n : Int)
  | list (xs : List Val)
  | dict (entries : List (String × Val)) (attrs : List (String × Val))
  | obj (attrs : List (String × Val))

/-- Lookup in an association list, first match wins.  Models both
`key in d` / `d[key]` on a mapping and attribute lookup on an object. -/
def alget : List (String × Val) → String → Option Val
  | [], _ => Option.none
  | p :: rest, key => if p.1 = key then Option.some p.2 else alget rest key

/-- The `isinstance(item, dict)` test. -/
def isDict : Val → Bool
  | Val.dict _ _ => true
  | _ => false

/-- The mapping method `item.get(key)`: the value when the key is
present, `None` otherwise.  Only ever applied to mappings. -/
def mGet : Val → String → Val
  | Val.dict es _, key => (alget es key).getD Val.none
  | _, _ => Val.none

/-- The builtin `getattr(item, key, None)`: the attribute value when
present, `None` otherwise.  Strings, numbers, lists and `None` carry
none of the attributes the normalizer asks for. -/
def pyGetattr : Val → String → Val
  | Val.obj attrs, key => (alget attrs key).getD Val.none
  | Val.dict _ attrs, key => (alget attrs key).getD Val.none
  | _, _ => Val.none

/-- Python truthiness of a value, as used by `x or []`. -/
def truthy : Val → Bool
  | Val.none => false
  | Val.str s => !s.isEmpty
  | Val.num n => n != 0
  | Val.list xs => !xs.isEmpty
  | Val.dict es _ => !es.isEmpty
  | Val.obj _ => true

/-- The nested helper `safe_get(d, *keys)` of
`create_invoice_summary_tables` (utilities.py lines 326-332): walk the
keys, stepping only through mappings that contain the key, and return
`None` as soon as a step fails. -/
def safe_get : Val → List String → Val
  | d, [] => d
  | Val.dict es _, key :: rest =>
      match alget es key with
      | Option.some v => safe_get v rest
      | Option.none => Val.none
  | _, _ :: _ => Val.none

/-- A bounding box object: each of the four coordinates is an
attribute that may be absent (`Option.none`) or present with any
value. -/
structure Box : Type where
  left : Option Val
  top : Option Val
  right : Option Val
  bottom : Option Val

/-- A grounding object: the `page` attribute may be absent or carry a
value; the `box` attribute may be absent, present but `None` (the
falsy case), or present with a box object. -/
structure Grounding : Type where
  page : Option Val
  box : Option (Option Box)

/-- A chunk of the parse response.  Every attribute access on chunks
in the source is guarded by `hasattr`, so each attribute is optional;
`grounding` may additionally be present but `None`. -/
structure Chunk : Type where
  id : Option Val
  type : Option Val
  markdown : Option Val
  grounding : Option (Option Grounding)

/-- The metadata object of a parse response: `filename` and `version`
attributes may be absent (the source checks `hasattr`). -/
structure PMetadata : Type where
  filename : Option Val
  version : Option Val

/-- A parse response: `metadata`, `markdown` and `chunks` are accessed
unguarded by the source, so they are plain fields. -/
structure ParseResult : Type where
  metadata : PMetadata
  markdown : Val
  chunks : List Chunk

/-- An extract response: the `extraction` attribute may be absent (the
source checks `hasattr`) and otherwise holds an arbitrary value. -/
structure ExtractResult : Type where
  extraction : Option Val

/-- The dynamically typed values a caller can pass as the `results`
argument (and as elements of a batch list): a genuine parse response
object, a genuine extract response object, a two-tuple, a Python list,
or some other object carrying none of the attributes the normalizer
reads and not unpackable as a pair. -/
inductive PyRes : Type
  | parseO (pr : ParseResult)
  | extractO (er : ExtractResult)
  | pairV (fst snd : PyRes)
  | listV (items : List PyRes)
  | other

/-- The Python exceptions the normalizer can raise: the explicit
`ValueError` of line 261 (with its message), a `TypeError` (iterating
or unpacking a non-iterable), and an `AttributeError` (reading a
missing attribute of a value that is not a parse response). -/
inductive PErr : Type
  | valueError (msg : String)
  | typeError
  | attributeError

/-- A table row: column names paired with values, in construction
order. -/
abbrev Row : Type := List (String × Val)

/-- The rows one document contributes: its markdown row, its chunk
rows, its invoice header row, and its line item rows. -/
abbrev DocT : Type := Row × List Row × Row × List Row

/-- The four result tables, in the order the source returns them. -/
structure Tables : Type where
  markdown_df : List Row
  chunks_df : List Row
  main_df : List Row
  line_items_df : List Row

/-- Line 280: `parse_result.metadata.filename` when present, else the
literal string unknown. -/
def docName (pr : ParseResult) : Val :=
  pr.metadata.filename.getD (Val.str "unknown")

/-- Line 281: `parse_result.metadata.version` when present, else the
literal string unknown. -/
def docVersion (pr : ParseResult) : Val :=
  pr.metadata.version.getD (Val.str "unknown")

/-- Lines 286-292: the MARKDOWN table row of one document. -/
def markdownRow (rid uuid : String) (pr : ParseResult) : Row :=
  [("RUN_ID", Val.str rid),
   ("INVOICE_UUID", Val.str uuid),
   ("DOCUMENT_NAME", docName pr),
   ("AGENTIC_DOC_VERSION", docVersion pr),
   ("MARKDOWN", pr.markdown)]

/-- Lines 297-318: the PARSED_CHUNKS table row of one chunk.  The
locals `grounding`, `box`, `page` and `text` mirror the source: the
hasattr guard maps an absent attribute to `None`, and the truthiness
guards `grounding and ...` / `box and ...` make a `None` grounding or
box behave like an absent one. -/
def chunkRow (rid uuid : String) (dn : Val) (c : Chunk) : Row :=
  let grounding : Option Grounding := c.grounding.getD Option.none
  let box : Option Box :=
    match grounding with
    | Option.some g => g.box.getD Option.none
    | Option.none => Option.none
  let page : Val :=
    match grounding with
    | Option.some g => g.page.getD Val.none
    | Option.none => Val.none
  let text : Val := c.markdown.getD (Val.str "")
  [("RUN_ID", Val.str rid),
   ("INVOICE_UUID", Val.str uuid),
   ("DOCUMENT_NAME", dn),
   ("chunk_id", c.id.getD Val.none),
   ("chunk_type", c.type.getD Val.none),
   ("text", text),
   ("page", page),
   ("box_l", match box with | Option.some b => b.left.getD Val.none | Option.none => Val.none),
   ("box_t", match box with | Option.some b => b.top.getD Val.none | Option.none => Val.none),
   ("box_r", match box with | Option.some b => b.right.getD Val.none | Option.none => Val.none),
   ("box_b", match box with | Option.some b => b.bottom.getD Val.none | Option.none => Val.none)]

/-- Lines 335-379: the INVOICES_MAIN table row of one document,
written out field by field exactly as `main_data` is in the source. -/
def mainRow (rid uuid : String) (dn av : Val) (extraction : Val) : Row :=
  [("RUN_ID", Val.str rid),
   ("INVOICE_UUID", Val.str uuid),
   ("DOCUMENT_NAME", dn),
   ("AGENTIC_DOC_VERSION", av),
   ("INVOICE_DATE_RAW", safe_get extraction ["invoice_info", "invoice_date_raw"]),
   ("INVOICE_DATE", safe_get extraction ["invoice_info", "invoice_date"]),
   ("INVOICE_NUMBER", safe_get extraction ["invoice_info", "invoice_number"]),
   ("ORDER_DATE", safe_get extraction ["invoice_info", "order_date"]),
   ("PO_NUMBER", safe_get extraction ["invoice_info", "po_number"]),
   ("STATUS", safe_get extraction ["invoice_info", "status"]),
   ("SOLD_TO_NAME", safe_get extraction ["customer_info", "sold_to_name"]),
   ("SOLD_TO_ADDRESS", safe_get extraction ["customer_info", "sold_to_address"]),
   ("CUSTOMER_EMAIL", safe_get extraction ["customer_info", "customer_email"]),
   ("SUPPLIER_NAME", safe_get extraction ["company_info", "supplier_name"]),
   ("SUPPLIER_ADDRESS", safe_get extraction ["company_info", "supplier_address"]),
   ("REPRESENTATIVE", safe_get extraction ["company_info", "representative"]),
   ("EMAIL", safe_get extraction ["company_info", "email"]),
   ("PHONE", safe_get extraction ["company_info", "phone"]),
   ("GSTIN", safe_get extraction ["company_info", "gstin"]),
   ("PAN", safe_get extraction ["company_info", "pan"]),
   ("PAYMENT_TERMS", safe_get extraction ["order_details", "payment_terms"]),
   ("SHIP_VIA", safe_get extraction ["order_details", "ship_via"]),
   ("SHIP_DATE", safe_get extraction ["order_details", "ship_date"]),
   ("TRACKING_NUMBER", safe_get extraction ["order_details", "tracking_number"]),
   ("CURRENCY", safe_get extraction ["totals_summary", "currency"]),
   ("TOTAL_DUE_RAW", safe_get extraction ["totals_summary", "total_due_raw"]),
   ("TOTAL_DUE", safe_get extraction ["totals_summary", "total_due"]),
   ("SUBTOTAL", safe_get extraction ["totals_summary", "subtotal"]),
   ("TAX", safe_get extraction ["totals_summary", "tax"]),
   ("SHIPPING", safe_get extraction ["totals_summary", "shipping"]),
   ("HANDLING_FEE", safe_get extraction ["totals_summary", "handling_fee"])]

/-- The fixed enumeration of invoice header columns and the two-level
(group, field) path each one is read from. -/
def headerPaths : List (String × String × String) :=
  [("INVOICE_DATE_RAW", "invoice_info", "invoice_date_raw"),
   ("INVOICE_DATE", "invoice_info", "invoice_date"),
   ("INVOICE_NUMBER", "invoice_info", "invoice_number"),
   ("ORDER_DATE", "invoice_info", "order_date"),
   ("PO_NUMBER", "invoice_info", "po_number"),
   ("STATUS", "invoice_info", "status"),
   ("SOLD_TO_NAME", "customer_info", "sold_to_name"),
   ("SOLD_TO_ADDRESS", "customer_info", "sold_to_address"),
   ("CUSTOMER_EMAIL", "customer_info", "customer_email"),
   ("SUPPLIER_NAME", "company_info", "supplier_name"),
   ("SUPPLIER_ADDRESS", "company_info", "supplier_address"),
   ("REPRESENTATIVE", "company_info", "representative"),
   ("EMAIL", "company_info", "email"),
   ("PHONE", "company_info", "phone"),
   ("GSTIN", "company_info", "gstin"),
   ("PAN", "company_info", "pan"),
   ("PAYMENT_TERMS", "order_details", "payment_terms"),
   ("SHIP_VIA", "order_details", "ship_via"),
   ("SHIP_DATE", "order_details", "ship_date"),
   ("TRACKING_NUMBER", "order_details", "tracking_number"),
   ("CURRENCY", "totals_summary", "currency"),
   ("TOTAL_DUE_RAW", "totals_summary", "total_due_raw"),
   ("TOTAL_DUE", "totals_summary", "total_due"),
   ("SUBTOTAL", "totals_summary", "subtotal"),
   ("TAX", "totals_summary", "tax"),
   ("SHIPPING", "totals_summary", "shipping"),
   ("HANDLING_FEE", "totals_summary", "handling_fee")]

/-- Lines 386-401: the INVOICE_LINE_ITEMS table row of one line item,
each field written as `item.get(key) if isinstance(item, dict) else
getattr(item, key, None)` in the source. -/
def lineItemRow (rid uuid : String) (dn av : Val) (idx : Nat) (item : Val) : Row :=
  [("RUN_ID", Val.str rid),
   ("INVOICE_UUID", Val.str uuid),
   ("DOCUMENT_NAME", dn),
   ("AGENTIC_DOC_VERSION", av),
   ("LINE_INDEX", Val.num (Int.ofNat idx)),
   ("LINE_NUMBER", if isDict item then mGet item "line_number" else pyGetattr item "line_number"),
   ("SKU", if isDict item then mGet item "sku" else pyGetattr item "sku"),
   ("DESCRIPTION", if isDict item then mGet item "description" else pyGetattr item "description"),
   ("QUANTITY", if isDict item then mGet item "quantity" else pyGetattr item "quantity"),
   ("UNIT_PRICE", if isDict item then mGet item "unit_price" else pyGetattr item "unit_price"),
   ("PRICE", if isDict item then mGet item "price" else pyGetattr item "price"),
   ("AMOUNT", if isDict item then mGet item "amount" else pyGetattr item "amount"),
   ("TOTAL", if isDict item then mGet item "total" else pyGetattr item "total")]

/-- The eight line item columns and the name each is looked up by. -/
def lineFields : List (String × String) :=
  [("LINE_NUMBER", "line_number"),
   ("SKU", "sku"),
   ("DESCRIPTION", "description"),
   ("QUANTITY", "quantity"),
   ("UNIT_PRICE", "unit_price"),
   ("PRICE", "price"),
   ("AMOUNT", "amount"),
   ("TOTAL", "total")]

/-- The field resolution the code actually performs: mapping key
access when the item is a mapping (no fallback), attribute access
otherwise. -/
def itemField (item : Val) (key : String) : Val :=
  if isDict item then mGet item key else pyGetattr item key

/-- The field resolution claimed by the specification sentence under
test (claim C3): mapping key access is checked first and, when it does
not resolve, attribute access is used as a fallback; only if neither
resolves is the value null.  This definition follows the words of the
claim, not the source, and exists to be compared against `itemField`. -/
def itemFieldClaimed (item : Val) : String → Val
  | key =>
    match item with
    | Val.dict es attrs =>
        match alget es key with
        | Option.some v => v
        | Option.none => (alget attrs key).getD Val.none
    | Val.obj attrs => (alget attrs key).getD Val.none
    | _ => Val.none

/-- Line 384: safe_get of the line_items key, with a falsy result
replaced by the empty list. -/
def lineItemsVal (extraction : Val) : Val :=
  let v := safe_get extraction ["line_items"]
  if truthy v then v else Val.list []

/-- Iteration of a value by `enumerate` in line 386: a list yields its
elements, a string its characters, a mapping its keys; `None`, numbers
and plain objects are not iterable and raise `TypeError`. -/
def iterVal : Val → Except PErr (List Val)
  | Val.list xs => Except.ok xs
  | Val.str s => Except.ok (s.data.map fun ch => Val.str (String.mk [ch]))
  | Val.dict es _ => Except.ok (es.map fun p => Val.str p.1)
  | _ => Except.error PErr.typeError

/-- Line 323 applied to an arbitrary second component of a pair: the
hasattr-guarded read of the `extraction` attribute, defaulting to an
empty mapping.  Only a genuine extract response object carries the
`extraction` attribute. -/
def extractionOfAny : PyRes → Val
  | PyRes.extractO er => er.extraction.getD (Val.dict [] [])
  | _ => Val.dict [] []

/-- Reading the parse side of a document pair.  The source reads
`parse_result.metadata` (line 280), `.markdown` (line 291) and
`.chunks` (line 297) unguarded, so any value that is not a parse
response object raises `AttributeError` before any row of the document
is built; the model raises at the first such access. -/
def asParse : PyRes → Except PErr ParseResult
  | PyRes.parseO pr => Except.ok pr
  | _ => Except.error PErr.attributeError

/-- Tuple unpacking `for parse_result, extract_result in results_list`
applied to one element: a two-tuple or a two-element list unpacks, a
list of another length raises `ValueError`, and a non-iterable value
raises `TypeError`. -/
def unpack2 : PyRes → Except PErr (PyRes × PyRes)
  | PyRes.pairV a b => Except.ok (a, b)
  | PyRes.listV [a, b] => Except.ok (a, b)
  | PyRes.listV _ => Except.error (PErr.valueError "unpack")
  | _ => Except.error PErr.typeError

/-- Lines 277-401: the rows contributed by one (parse, extraction)
document, in source order: the markdown row, one chunk row per chunk,
the invoice header row, and one line item row per enumerated line
item. -/
def processDoc (rid uuid : String) (pr : ParseResult) (extraction : Val) :
    Except PErr DocT :=
  match iterVal (lineItemsVal extraction) with
  | Except.error e => Except.error e
  | Except.ok items =>
      Except.ok
        (markdownRow rid uuid pr,
         pr.chunks.map (chunkRow rid uuid (docName pr)),
         mainRow rid uuid (docName pr) (docVersion pr) extraction,
         items.enum.map fun p => lineItemRow rid uuid (docName pr) (docVersion pr) p.1 p.2)

/-- The batch loop of line 275: unpack each element, read its parse
side, process the document (the fresh invoice uuid of the document at
position `i` is `gu i`), and stop at the first raised exception. -/
def runBatch (rid : String) (gu : Nat → String) : Nat → List PyRes → Except PErr (List DocT)
  | _, [] => Except.ok []
  | i, item :: rest =>
      match unpack2 item with
      | Except.error e => Except.error e
      | Except.ok pe =>
          match asParse pe.1 with
          | Except.error e => Except.error e
          | Except.ok pr =>
              match processDoc rid (gu i) pr (extractionOfAny pe.2) with
              | Except.error e => Except.error e
              | Except.ok dt =>
                  match runBatch rid gu (i + 1) rest with
                  | Except.error e => Except.error e
                  | Except.ok ds => Except.ok (dt :: ds)

/-- Lines 403-410: accumulate the per-document rows into the four
DataFrames, preserving document order and sub-item order. -/
def toTables (ds : List DocT) : Tables :=
  { markdown_df := ds.map fun d => d.1
    chunks_df := ds.flatMap fun d => d.2.1
    main_df := ds.map fun d => d.2.2.1
    line_items_df := ds.flatMap fun d => d.2.2.2 }

/-- Lines 254-412: `create_invoice_summary_tables(results,
extract_result, run_id)`.  Fresh identifier generation is made
explicit: `gen_run_id` is the uuid generated for the run when `run_id`
is `None`, and `gen_uuid i` is the invoice uuid generated for the
document at position `i` of this call.  A list argument selects batch
mode (the `extract_result` parameter is never read there); any other
argument is single document mode, which first requires `extract_result`
to be supplied (line 260) and then processes the one pair. -/
def create_invoice_summary_tables (results : PyRes) (extract_result : Option PyRes)
    (run_id : Option String) (gen_run_id : String) (gen_uuid : Nat → String) :
    Except PErr Tables :=
  match results with
  | PyRes.listV items =>
      match runBatch (run_id.getD gen_run_id) gen_uuid 0 items with
      | Except.error e => Except.error e
      | Except.ok ds => Except.ok (toTables ds)
  | r =>
      match extract_result with
      | Option.none =>
          Except.error (PErr.valueError "In single document mode, extract_result parameter is required")
      | Option.some ex =>
          match asParse r with
          | Except.error e => Except.error e
          | Except.ok pr =>
              match processDoc (run_id.getD gen_run_id) (gen_uuid 0) pr (extractionOfAny ex) with
              | Except.error e => Except.error e
              | Except.ok dt => Except.ok (toTables [dt])

/-- The payload `processDoc` returns when line item enumeration
succeeds with `items`. -/
def docT (rid uuid : String) (pr : ParseResult) (extraction : Val) (items : List Val) : DocT :=
  (markdownRow rid uuid pr,
   pr.chunks.map (chunkRow rid uuid (docName pr)),
   mainRow rid uuid (docName pr) (docVersion pr) extraction,
   items.enum.map fun p => lineItemRow rid uuid (docName pr) (docVersion pr) p.1 p.2)

/-- The sequence of line items the loop of line 386 enumerates for an
extract response, when that enumeration succeeds. -/
def itemsOf (er : ExtractResult) : Option (List Val) :=
  match iterVal (lineItemsVal (extractionOfAny (PyRes.extractO er))) with
  | Except.ok xs => Option.some xs
  | Except.error _ => Option.none

/-- A well formed batch element: a two-tuple of a parse response and
an extract response. -/
def wfBatchItem (pe : ParseResult × ExtractResult) : PyRes :=
  PyRes.pairV (PyRes.parseO pe.1) (PyRes.extractO pe.2)

/-- The row counts of the four tables, in return order. -/
def tableLengths (t : Tables) : Nat × Nat × Nat × Nat :=
  (t.markdown_df.length, t.chunks_df.length, t.main_df.length, t.line_items_df.length)

/-- All rows of all four tables of one call. -/
def allRows (t : Tables) : List Row :=
  t.markdown_df ++ t.chunks_df ++ t.main_df ++ t.line_items_df

/-- The invoice identifiers of a call, read off the markdown table in
document order. -/
def invoiceIds (t : Tables) : List Val :=
  t.markdown_df.filterMap fun r => alget r "INVOICE_UUID"

/-- Whether a call result delivered tables. -/
def isOkT (x : Except PErr Tables) : Bool :=
  match x with
  | Except.ok _ => true
  | Except.error _ => false

/-- The tables of a successful call (with empty tables as a formal
default for the error case). -/
def okTables (x : Except PErr Tables) : Tables :=
  match x with
  | Except.ok t => t
  | Except.error _ => ⟨[], [], [], []⟩

/-- A malformed argument in the sense of claim C8: the caller supplied
neither a pair (a non-list first argument together with a supplied
extract result) nor a sequence of pairs (a list whose elements all
unpack as pairs).  The three cases: single document mode with no
extract result; single document mode whose first argument is not even
a parse response; a list containing an element that does not unpack as
a pair. -/
def malformedArg (results : PyRes) (extract_result : Option PyRes) : Prop :=
  ((∀ xs, results ≠ PyRes.listV xs) ∧ extract_result = Option.none) ∨
  ((∀ xs, results ≠ PyRes.listV xs) ∧ (∀ pr, results ≠ PyRes.parseO pr) ∧
    extract_result ≠ Option.none) ∨
  (∃ xs, results = PyRes.listV xs ∧ ∃ item ∈ xs, ∃ e, unpack2 item = Except.error e)

/-- Example uuid generator assigning distinct identifiers to the first
two documents. -/
def exGu : Nat → String :=
  fun i => if i = 0 then "uuid-a" else "uuid-b"

/-- Example chunk whose grounding attribute is present but `None`. -/
def exChunkGrNone : Chunk :=
  ⟨Option.some (Val.str "c1"), Option.some (Val.str "text"),
   Option.some (Val.str "chunk one"), Option.some Option.none⟩

/-- Example box carrying only the left and top coordinates. -/
def exBoxLT : Box :=
  ⟨Option.some (Val.num 1), Option.some (Val.num 2), Option.none, Option.none⟩

/-- Example chunk with a grounding whose box has only left and top. -/
def exChunkLT : Chunk :=
  ⟨Option.some (Val.str "c2"), Option.some (Val.str "table"),
   Option.some (Val.str "chunk two"),
   Option.some (Option.some ⟨Option.some (Val.num 3), Option.some (Option.some exBoxLT)⟩)⟩

/-- Example parse response with two chunks. -/
def exPr : ParseResult :=
  ⟨⟨Option.some (Val.str "invoice.pdf"), Option.some (Val.str "v1")⟩,
   Val.str "# markdown", [exChunkGrNone, exChunkLT]⟩

/-- The extraction of testable property 6 of the specification: only
`invoice_info.invoice_number` is set. -/
def exExtraction : Val :=
  Val.dict [("invoice_info", Val.dict [("invoice_number", Val.str "INV-001")] [])] []

/-- Example extract response wrapping `exExtraction`. -/
def exEr : ExtractResult := ⟨Option.some exExtraction⟩

/-- Example extract response with two line items, one a mapping and
one an attribute-bearing object (testable property 7 of the
specification). -/
def exErItems : ExtractResult :=
  ⟨Option.some (Val.dict
    [("line_items", Val.list
      [Val.dict [("sku", Val.str "A1"), ("quantity", Val.num 3)] [],
       Val.obj [("sku", Val.str "A2"), ("quantity", Val.num 5)]])] [])⟩

/-- The line item refuting claim C3: an instance of a `dict` subclass
that lacks the `sku` key but carries a `sku` attribute. -/
def cexItem : Val := Val.dict [] [("sku", Val.str "A2")]

/-- Extract response whose single line item is `cexItem`. -/
def cexEr : ExtractResult :=
  ⟨Option.some (Val.dict [("line_items", Val.list [cexItem])] [])⟩

/-- Minimal parse response used alongside `cexEr`. -/
def cexPr : ParseResult :=
  ⟨⟨Option.some (Val.str "doc.pdf"), Option.some (Val.str "v1")⟩, Val.str "md", []⟩

lemma safe_get_of_not_dict (v : Val) (keys : List String) (hv : isDict v = false)
    (hk : keys ≠ []) : safe_get v keys = Val.none := by
  cases v <;> cases keys <;> simp_all [safe_get, isDict]

/-- C1: for every input document pair, the invoice header row produced
by `create_invoice_summary_tables` is built by reading exactly the
fixed, enumerated set of two-level (group, field) paths out of the
extraction (defaulted to an empty mapping when the `extraction`
attribute is absent) via the null-safe nested lookup `safe_get`: an
absent group, an absent field, or a non-mapping intermediate value
resolves to null, and an existing value passes through to the row
unchanged with no coercion. -/
theorem c1_header_row_from_enumerated_paths (rid uuid : String) (dn av : Val)
    (extraction : Val) :
    (mainRow rid uuid dn av extraction =
      ("RUN_ID", Val.str rid) :: ("INVOICE_UUID", Val.str uuid) ::
      ("DOCUMENT_NAME", dn) :: ("AGENTIC_DOC_VERSION", av) ::
      headerPaths.map (fun t => (t.1, safe_get extraction [t.2.1, t.2.2]))) ∧
    (∀ er : ExtractResult, er.extraction = Option.none →
      extractionOfAny (PyRes.extractO er) = Val.dict [] []) ∧
    (∀ es ats g f, alget es g = Option.none →
      safe_get (Val.dict es ats) [g, f] = Val.none) ∧
    (∀ es ats g f v, alget es g = Option.some v → isDict v = false →
      safe_get (Val.dict es ats) [g, f] = Val.none) ∧
    (∀ es ats es2 ats2 g f, alget es g = Option.some (Val.dict es2 ats2) →
      alget es2 f = Option.none → safe_get (Val.dict es ats) [g, f] = Val.none) ∧
    (∀ es ats es2 ats2 g f v, alget es g = Option.some (Val.dict es2 ats2) →
      alget es2 f = Option.some v → safe_get (Val.dict es ats) [g, f] = v) ∧
    (∀ v g f, isDict v = false → safe_get v [g, f] = Val.none) := by
  refine ⟨rfl, ?_, ?_, ?_, ?_, ?_, ?_⟩
  · intro er h
    simp [extractionOfAny, h]
  · intro es ats g f h
    simp [safe_get, h]
  · intro es ats g f v h hv
    simp only [safe_get, h]
    exact safe_get_of_not_dict v [f] hv (by simp)
  · intro es ats es2 ats2 g f h1 h2
    simp [safe_get, h1, h2]
  · intro es ats es2 ats2 g f v h1 h2
    simp [safe_get, h1, h2]
  · intro v g f hv
    exact safe_get_of_not_dict v [g, f] hv (by simp)

/-- Witness for C1, instantiating each part on concrete inputs,
including the extraction of testable property 6 of the specification. -/
theorem c1_header_row_from_enumerated_paths_witness :
    (mainRow "r" "u" (Val.str "d") (Val.str "v") exExtraction =
      ("RUN_ID", Val.str "r") :: ("INVOICE_UUID", Val.str "u") ::
      ("DOCUMENT_NAME", Val.str "d") :: ("AGENTIC_DOC_VERSION", Val.str "v") ::
      headerPaths.map (fun t => (t.1, safe_get exExtraction [t.2.1, t.2.2]))) ∧
    extractionOfAny (PyRes.extractO ⟨Option.none⟩) = Val.dict [] [] ∧
    safe_get (Val.dict [] []) ["customer_info", "sold_to_name"] = Val.none ∧
    safe_get (Val.dict [("invoice_info", Val.str "odd")] []) ["invoice_info", "status"] = Val.none ∧
    safe_get exExtraction ["invoice_info", "po_number"] = Val.none ∧
    safe_get exExtraction ["invoice_info", "invoice_number"] = Val.str "INV-001" ∧
    safe_get (Val.num 5) ["invoice_info", "invoice_number"] = Val.none := by
  obtain ⟨h1, h2, h3, h4, h5, h6, h7⟩ :=
    c1_header_row_from_enumerated_paths "r" "u" (Val.str "d") (Val.str "v") exExtraction
  refine ⟨h1, h2 ⟨Option.none⟩ rfl, h3 [] [] "customer_info" "sold_to_name" rfl, ?_, ?_, ?_, ?_⟩
  · exact h4 [("invoice_info", Val.str "odd")] [] "invoice_info" "status" (Val.str "odd") rfl rfl
  · exact h5 [("invoice_info", Val.dict [("invoice_number", Val.str "INV-001")] [])] []
      [("invoice_number", Val.str "INV-001")] [] "invoice_info" "po_number" rfl rfl
  · exact h6 [("invoice_info", Val.dict [("invoice_number", Val.str "INV-001")] [])] []
      [("invoice_number", Val.str "INV-001")] [] "invoice_info" "invoice_number"
      (Val.str "INV-001") rfl rfl
  · exact h7 (Val.num 5) "invoice_info" "invoice_number" rfl

/-- C4: the chunk row resolves grounding defensively: an absent or
`None` grounding nulls the page and all four box fields; a grounding
without a box (or with a `None` box) nulls the box fields while the
page is still read from the grounding; and each of the four box
coordinates is read independently of the others. -/
theorem c4_chunk_grounding_defensive (rid uuid : String) (dn : Val) :
    (∀ c : Chunk, (c.grounding = Option.none ∨ c.grounding = Option.some Option.none) →
      alget (chunkRow rid uuid dn c) "page" = Option.some Val.none ∧
      alget (chunkRow rid uuid dn c) "box_l" = Option.some Val.none ∧
      alget (chunkRow rid uuid dn c) "box_t" = Option.some Val.none ∧
      alget (chunkRow rid uuid dn c) "box_r" = Option.some Val.none ∧
      alget (chunkRow rid uuid dn c) "box_b" = Option.some Val.none) ∧
    (∀ c : Chunk, ∀ g : Grounding, c.grounding = Option.some (Option.some g) →
      (g.box = Option.none ∨ g.box = Option.some Option.none) →
      alget (chunkRow rid uuid dn c) "page" = Option.some (g.page.getD Val.none) ∧
      alget (chunkRow rid uuid dn c) "box_l" = Option.some Val.none ∧
      alget (chunkRow rid uuid dn c) "box_t" = Option.some Val.none ∧
      alget (chunkRow rid uuid dn c) "box_r" = Option.some Val.none ∧
      alget (chunkRow rid uuid dn c) "box_b" = Option.some Val.none) ∧
    (∀ c : Chunk, ∀ g : Grounding, ∀ b : Box,
      c.grounding = Option.some (Option.some g) → g.box = Option.some (Option.some b) →
      alget (chunkRow rid uuid dn c) "page" = Option.some (g.page.getD Val.none) ∧
      alget (chunkRow rid uuid dn c) "box_l" = Option.some (b.left.getD Val.none) ∧
      alget (chunkRow rid uuid dn c) "box_t" = Option.some (b.top.getD Val.none) ∧
      alget (chunkRow rid uuid dn c) "box_r" = Option.some (b.right.getD Val.none) ∧
      alget (chunkRow rid uuid dn c) "box_b" = Option.some (b.bottom.getD Val.none)) := by
  refine ⟨?_, ?_, ?_⟩
  · rintro ⟨cid, cty, cmd, cgr⟩ (h | h) <;> subst h <;>
      exact ⟨rfl, rfl, rfl, rfl, rfl⟩
  · rintro ⟨cid, cty, cmd, cgr⟩ g h (hb | hb) <;> subst h <;>
      simp [chunkRow, alget, hb]
  · rintro ⟨cid, cty, cmd, cgr⟩ g b h hb
    subst h
    simp [chunkRow, alget, hb]

/-- Witness for C4, on the two example chunks of testable property 5
of the specification: a chunk whose grounding is `None`, and a chunk
whose box carries only left and top. -/
theorem c4_chunk_grounding_defensive_witness :
    alget (chunkRow "r" "u" (Val.str "d") exChunkGrNone) "page" = Option.some Val.none ∧
    alget (chunkRow "r" "u" (Val.str "d") exChunkGrNone) "box_l" = Option.some Val.none ∧
    alget (chunkRow "r" "u" (Val.str "d") exChunkGrNone) "box_b" = Option.some Val.none ∧
    alget (chunkRow "r" "u" (Val.str "d") exChunkLT) "page" = Option.some (Val.num 3) ∧
    alget (chunkRow "r" "u" (Val.str "d") exChunkLT) "box_l" = Option.some (Val.num 1) ∧
    alget (chunkRow "r" "u" (Val.str "d") exChunkLT) "box_t" = Option.some (Val.num 2) ∧
    alget (chunkRow "r" "u" (Val.str "d") exChunkLT) "box_r" = Option.some Val.none ∧
    alget (chunkRow "r" "u" (Val.str "d") exChunkLT) "box_b" = Option.some Val.none := by
  obtain ⟨h1, _, h3⟩ := c4_chunk_grounding_defensive "r" "u" (Val.str "d")
  obtain ⟨p1, p2, _, _, p5⟩ := h1 exChunkGrNone (Or.inr rfl)
  obtain ⟨q1, q2, q3, q4, q5⟩ :=
    h3 exChunkLT ⟨Option.some (Val.num 3), Option.some (Option.some exBoxLT)⟩ exBoxLT rfl rfl
  exact ⟨p1, p2, p5, q1, q2, q3, q4, q5⟩

/-- C5: calling in single document mode (first argument not a list)
with no extract result raises the descriptive `ValueError` of line 261
before any row is emitted, so no tables at all are produced. -/
theorem c5_single_mode_requires_extract (r : PyRes) (hr : ∀ xs, r ≠ PyRes.listV xs)
    (run_id : Option String) (gen_run_id : String) (gen_uuid : Nat → String) :
    create_invoice_summary_tables r Option.none run_id gen_run_id gen_uuid =
      Except.error
        (PErr.valueError "In single document mode, extract_result parameter is required") := by
  cases r with
  | listV xs => exact absurd rfl (hr xs)
  | parseO pr => rfl
  | extractO er => rfl
  | pairV a b => rfl
  | other => rfl

/-- Witness for C5: a genuine parse response with no extract result. -/
theorem c5_single_mode_requires_extract_witness :
    create_invoice_summary_tables (PyRes.parseO exPr) Option.none Option.none "run-gen" exGu =
      Except.error
        (PErr.valueError "In single document mode, extract_result parameter is required") :=
  c5_single_mode_requires_extract (PyRes.parseO exPr)
    (fun _ h => PyRes.noConfusion h) Option.none "run-gen" exGu

/-- C9: a zero-length batch raises no error and returns four tables
each with zero rows. -/
theorem c9_empty_batch_four_empty_tables (extract_result : Option PyRes)
    (run_id : Option String) (gen_run_id : String) (gen_uuid : Nat → String) :
    create_invoice_summary_tables (PyRes.listV []) extract_result run_id gen_run_id gen_uuid =
      Except.ok ⟨[], [], [], []⟩ :=
  rfl

/-- C10: mode dispatch depends solely on whether the first argument is
a list: batch mode never reads the `extract_result` parameter, every
non-list argument is processed exactly like the singleton batch
pairing it with the `extract_result` parameter, and in particular a
tuple of pairs is treated as a (failing) parse result instead of being
unpacked. -/
theorem c10_mode_dispatch_is_list_only :
    (∀ xs exr1 exr2 run_id gen_run_id gen_uuid,
      create_invoice_summary_tables (PyRes.listV xs) exr1 run_id gen_run_id gen_uuid =
        create_invoice_summary_tables (PyRes.listV xs) exr2 run_id gen_run_id gen_uuid) ∧
    (∀ r : PyRes, (∀ xs, r ≠ PyRes.listV xs) → ∀ ex run_id gen_run_id gen_uuid,
      create_invoice_summary_tables r (Option.some ex) run_id gen_run_id gen_uuid =
        create_invoice_summary_tables (PyRes.listV [PyRes.pairV r ex]) Option.none
          run_id gen_run_id gen_uuid) ∧
    (∀ a b ex run_id gen_run_id gen_uuid,
      create_invoice_summary_tables (PyRes.pairV a b) (Option.some ex)
        run_id gen_run_id gen_uuid = Except.error PErr.attributeError) := by
  refine ⟨fun xs exr1 exr2 run_id gen_run_id gen_uuid => rfl, ?_, fun a b ex r g u => rfl⟩
  intro r hr ex run_id gen_run_id gen_uuid
  cases r with
  | listV xs => exact absurd rfl (hr xs)
  | parseO pr =>
      cases hpd : processDoc (run_id.getD gen_run_id) (gen_uuid 0) pr (extractionOfAny ex) with
      | error e =>
          simp [create_invoice_summary_tables, runBatch, unpack2, asParse, hpd]
      | ok dt =>
          simp [create_invoice_summary_tables, runBatch, unpack2, asParse, hpd]
  | extractO er => rfl
  | pairV a b => rfl
  | other => rfl

/-- Witness for C10: the non-list conjunct applied to a genuine parse
response, plus the two unconditional conjuncts at concrete inputs. -/
theorem c10_mode_dispatch_is_list_only_witness :
    (create_invoice_summary_tables (PyRes.listV [wfBatchItem (exPr, exEr)])
        (Option.some (PyRes.extractO cexEr)) Option.none "g" exGu =
      create_invoice_summary_tables (PyRes.listV [wfBatchItem (exPr, exEr)])
        Option.none Option.none "g" exGu) ∧
    (create_invoice_summary_tables (PyRes.parseO exPr) (Option.some (PyRes.extractO exEr))
        Option.none "g" exGu =
      create_invoice_summary_tables
        (PyRes.listV [PyRes.pairV (PyRes.parseO exPr) (PyRes.extractO exEr)])
        Option.none Option.none "g" exGu) ∧
    (create_invoice_summary_tables (PyRes.pairV (PyRes.parseO exPr) (PyRes.extractO exEr))
        (Option.some (PyRes.extractO exEr)) Option.none "g" exGu =
      Except.error PErr.attributeError) := by
  obtain ⟨h1, h2, h3⟩ := c10_mode_dispatch_is_list_only
  exact ⟨h1 _ _ _ _ _ _, h2 _ (fun _ h => PyRes.noConfusion h) _ _ _ _, h3 _ _ _ _ _ _⟩

/-- Counterexample to C3 as stated: for a line item that is a mapping
(an instance of a `dict` subclass) lacking the `sku` key but carrying
a `sku` attribute with value `"A2"`, the claimed resolution (mapping
key access first, then attribute access as a fallback) yields `"A2"`,
but the row the code produces carries null: the code never falls back
to attribute access for a mapping item. -/
theorem c3_counterexample_no_attribute_fallback :
    ((create_invoice_summary_tables (PyRes.parseO cexPr) (Option.some (PyRes.extractO cexEr))
        (Option.some "r") "g" exGu).map
      (fun t => t.line_items_df.map (fun row => alget row "SKU"))) =
        Except.ok [Option.some Val.none] ∧
    itemFieldClaimed cexItem "sku" = Val.str "A2" ∧
    Val.none ≠ Val.str "A2" := by
  refine ⟨rfl, rfl, fun h => Val.noConfusion h⟩

/-- C3 (amended): for every line item and each of the eight named
fields, the value placed in the line item row is resolved by mapping
key access alone when the item is a mapping (with no attribute
fallback: a mapping lacking the key yields null even when it carries
the attribute), and by attribute access when it is not, defaulting to
null when the lookup fails. -/
theorem c3_line_item_field_resolution (rid uuid : String) (dn av : Val)
    (idx : Nat) (item : Val) :
    (lineItemRow rid uuid dn av idx item =
      [("RUN_ID", Val.str rid), ("INVOICE_UUID", Val.str uuid), ("DOCUMENT_NAME", dn),
       ("AGENTIC_DOC_VERSION", av), ("LINE_INDEX", Val.num (Int.ofNat idx))] ++
      lineFields.map (fun f => (f.1, itemField item f.2))) ∧
    (∀ es ats key, alget es key = Option.none →
      itemField (Val.dict es ats) key = Val.none) ∧
    (∀ es ats key v, alget es key = Option.some v →
      itemField (Val.dict es ats) key = v) ∧
    (∀ ats key, itemField (Val.obj ats) key = (alget ats key).getD Val.none) := by
  refine ⟨rfl, ?_, ?_, ?_⟩
  · intro es ats key h
    simp [itemField, isDict, mGet, h]
  · intro es ats key v h
    simp [itemField, isDict, mGet, h]
  · intro ats key
    simp [itemField, isDict, pyGetattr]

/-- Witness for the amended C3, on the two line items of testable
property 7 of the specification plus the attribute-carrying mapping. -/
theorem c3_line_item_field_resolution_witness :
    (lineItemRow "r" "u" (Val.str "d") (Val.str "v") 0
        (Val.dict [("sku", Val.str "A1"), ("quantity", Val.num 3)] []) =
      [("RUN_ID", Val.str "r"), ("INVOICE_UUID", Val.str "u"),
       ("DOCUMENT_NAME", Val.str "d"), ("AGENTIC_DOC_VERSION", Val.str "v"),
       ("LINE_INDEX", Val.num (Int.ofNat 0))] ++
      lineFields.map (fun f => (f.1,
        itemField (Val.dict [("sku", Val.str "A1"), ("quantity", Val.num 3)] []) f.2))) ∧
    itemField cexItem "sku" = Val.none ∧
    itemField (Val.dict [("sku", Val.str "A1"), ("quantity", Val.num 3)] []) "sku" =
      Val.str "A1" ∧
    itemField (Val.obj [("sku", Val.str "A2"), ("quantity", Val.num 5)]) "quantity" =
      Val.num 5 := by
  obtain ⟨h1, h2, h3, h4⟩ := c3_line_item_field_resolution "r" "u" (Val.str "d") (Val.str "v") 0
    (Val.dict [("sku", Val.str "A1"), ("quantity", Val.num 3)] [])
  refine ⟨h1, ?_, ?_, ?_⟩
  · exact h2 [] [("sku", Val.str "A2")] "sku" rfl
  · exact h3 [("sku", Val.str "A1"), ("quantity", Val.num 3)] [] "sku" (Val.str "A1") rfl
  · simpa using h4 [("sku", Val.str "A2"), ("quantity", Val.num 5)] "quantity"

lemma itemsOf_iter {er : ExtractResult} {xs : List Val} (h : itemsOf er = Option.some xs) :
    iterVal (lineItemsVal (extractionOfAny (PyRes.extractO er))) = Except.ok xs := by
  cases hE : iterVal (lineItemsVal (extractionOfAny (PyRes.extractO er))) with
  | ok ys =>
      unfold itemsOf at h
      rw [hE] at h
      simp at h
      rw [h]
  | error e =>
      unfold itemsOf at h
      rw [hE] at h
      simp at h

lemma processDoc_ok {rid uuid : String} {pr : ParseResult} {ex : Val} {xs : List Val}
    (h : iterVal (lineItemsVal ex) = Except.ok xs) :
    processDoc rid uuid pr ex = Except.ok (docT rid uuid pr ex xs) := by
  unfold processDoc docT
  rw [h]

lemma runBatch_wf (rid : String) (gu : Nat → String)
    (pairs : List (ParseResult × ExtractResult))
    (hwf : ∀ pe ∈ pairs, (itemsOf pe.2).isSome) :
    ∀ i, runBatch rid gu i (pairs.map wfBatchItem) =
      Except.ok ((List.enumFrom i pairs).map fun q =>
        docT rid (gu q.1) q.2.1 (extractionOfAny (PyRes.extractO q.2.2))
          ((itemsOf q.2.2).getD [])) := by
  induction pairs with
  | nil => intro i; simp [runBatch]
  | cons pe rest ih =>
      intro i
      have h1 : (itemsOf pe.2).isSome := hwf pe (List.mem_cons_self pe rest)
      obtain ⟨xs, hxs⟩ := Option.isSome_iff_exists.mp h1
      have hrest := ih (fun q hq => hwf q (List.mem_cons_of_mem pe hq)) (i + 1)
      simp [runBatch, wfBatchItem, unpack2, asParse,
        processDoc_ok (itemsOf_iter hxs), hrest, List.enumFrom_cons, hxs]

lemma enumFrom_map_snd_fun {α β : Type _} (f : α → β) :
    ∀ (l : List α) (i : Nat), (List.enumFrom i l).map (fun q => f q.2) = l.map f := by
  intro l
  induction l with
  | nil => intro i; simp
  | cons a rest ih => intro i; simp [List.enumFrom_cons, ih]

lemma enumFrom_map_fst_fun {α β : Type _} (g : Nat → β) :
    ∀ (l : List α) (i : Nat),
      (List.enumFrom i l).map (fun q => g q.1) = (List.range' i l.length).map g := by
  intro l
  induction l with
  | nil => intro i; simp
  | cons a rest ih => intro i; simp [List.enumFrom_cons, List.range'_succ, ih]

/-- C2: for every batch of well formed document pairs whose line items
enumerate (and for single pair mode), the markdown table and the
invoice header table have exactly one row per input document pair, the
chunk table has one row per chunk summed over all documents, and the
line item table has one row per line item summed over all documents. -/
theorem c2_row_counts (pairs : List (ParseResult × ExtractResult)) (exr : Option PyRes)
    (run_id : Option String) (gen_run_id : String) (gen_uuid : Nat → String)
    (hwf : ∀ pe ∈ pairs, (itemsOf pe.2).isSome) :
    ((create_invoice_summary_tables (PyRes.listV (pairs.map wfBatchItem)) exr
        run_id gen_run_id gen_uuid).map tableLengths =
      Except.ok (pairs.length,
        (pairs.map fun pe => pe.1.chunks.length).sum,
        pairs.length,
        (pairs.map fun pe => ((itemsOf pe.2).getD []).length).sum)) ∧
    (∀ (pr : ParseResult) (er : ExtractResult), (itemsOf er).isSome →
      (create_invoice_summary_tables (PyRes.parseO pr) (Option.some (PyRes.extractO er))
          run_id gen_run_id gen_uuid).map tableLengths =
        Except.ok (1, pr.chunks.length, 1, ((itemsOf er).getD []).length)) := by
  constructor
  · have hrb := runBatch_wf (run_id.getD gen_run_id) gen_uuid pairs hwf 0
    simp only [create_invoice_summary_tables, hrb, Except.map]
    simp only [toTables, tableLengths, docT]
    refine congrArg Except.ok ?_
    refine Prod.ext ?_ (Prod.ext ?_ (Prod.ext ?_ ?_)) <;>
      simp [List.length_flatMap, Function.comp_def, enumFrom_map_snd_fun
        (fun pe : ParseResult × ExtractResult => pe.1.chunks.length),
        enumFrom_map_snd_fun
        (fun pe : ParseResult × ExtractResult => ((itemsOf pe.2).getD []).length)]
  · intro pr er her
    obtain ⟨xs, hxs⟩ := Option.isSome_iff_exists.mp her
    simp [create_invoice_summary_tables, asParse, Except.map,
      processDoc_ok (itemsOf_iter hxs), toTables, tableLengths, docT, hxs,
      List.length_map, List.enum_length]

/-- Witness for C2: a one document batch with two chunks and two line
items, in batch mode and in single document mode. -/
theorem c2_row_counts_witness :
    ((create_invoice_summary_tables (PyRes.listV [wfBatchItem (exPr, exErItems)]) Option.none
        Option.none "g" exGu).map tableLengths = Except.ok (1, 2, 1, 2)) ∧
    ((create_invoice_summary_tables (PyRes.parseO exPr) (Option.some (PyRes.extractO exErItems))
        Option.none "g" exGu).map tableLengths = Except.ok (1, 2, 1, 2)) := by
  have hwf : ∀ pe ∈ [(exPr, exErItems)], (itemsOf pe.2).isSome := by
    intro pe hpe
    rcases List.mem_cons.mp hpe with h | h
    · rw [h]; rfl
    · cases h
  obtain ⟨h1, h2⟩ := c2_row_counts [(exPr, exErItems)] Option.none Option.none "g" exGu hwf
  exact ⟨h1, h2 exPr exErItems rfl⟩

lemma processDoc_rows_runid {rid uuid : String} {pr : ParseResult} {ex : Val} {dt : DocT}
    (h : processDoc rid uuid pr ex = Except.ok dt) :
    alget dt.1 "RUN_ID" = Option.some (Val.str rid) ∧
    (∀ row ∈ dt.2.1, alget row "RUN_ID" = Option.some (Val.str rid)) ∧
    alget dt.2.2.1 "RUN_ID" = Option.some (Val.str rid) ∧
    (∀ row ∈ dt.2.2.2, alget row "RUN_ID" = Option.some (Val.str rid)) := by
  unfold processDoc at h
  cases hE : iterVal (lineItemsVal ex) with
  | error e => rw [hE] at h; cases h
  | ok items =>
      rw [hE] at h
      cases h
      refine ⟨rfl, ?_, rfl, ?_⟩
      · intro row hrow
        obtain ⟨c, _, hc⟩ := List.mem_map.mp hrow
        rw [← hc]
        rfl
      · intro row hrow
        obtain ⟨p, _, hp⟩ := List.mem_map.mp hrow
        rw [← hp]
        rfl

lemma runBatch_rows_runid (rid : String) (gu : Nat → String) :
    ∀ (items : List PyRes) (i : Nat) (ds : List DocT),
      runBatch rid gu i items = Except.ok ds →
      ∀ d ∈ ds,
        alget d.1 "RUN_ID" = Option.some (Val.str rid) ∧
        (∀ row ∈ d.2.1, alget row "RUN_ID" = Option.some (Val.str rid)) ∧
        alget d.2.2.1 "RUN_ID" = Option.some (Val.str rid) ∧
        (∀ row ∈ d.2.2.2, alget row "RUN_ID" = Option.some (Val.str rid)) := by
  intro items
  induction items with
  | nil =>
      intro i ds h d hd
      rw [runBatch] at h
      cases h
      cases hd
  | cons a rest ih =>
      intro i ds h d hd
      rw [runBatch] at h
      cases hu : unpack2 a with
      | error e => rw [hu] at h; cases h
      | ok pe =>
          rw [hu] at h
          dsimp only at h
          cases hp : asParse pe.1 with
          | error e => rw [hp] at h; cases h
          | ok pr =>
              rw [hp] at h
              dsimp only at h
              cases hd2 : processDoc rid (gu i) pr (extractionOfAny pe.2) with
              | error e => rw [hd2] at h; cases h
              | ok dt =>
                  rw [hd2] at h
                  dsimp only at h
                  cases hr : runBatch rid gu (i + 1) rest with
                  | error e => rw [hr] at h; cases h
                  | ok ds2 =>
                      rw [hr] at h
                      dsimp only at h
                      cases h
                      rcases List.mem_cons.mp hd with rfl | hmem
                      · exact processDoc_rows_runid hd2
                      · exact ih (i + 1) ds2 hr d hmem

/-- C6: every row in every one of the four returned tables of one call
carries the identical run identifier: the caller supplied `run_id`
when given, otherwise the single identifier generated for this call. -/
theorem c6_run_id_shared_by_all_rows (results : PyRes) (exr : Option PyRes)
    (run_id : Option String) (gen_run_id : String) (gen_uuid : Nat → String) (t : Tables)
    (h : create_invoice_summary_tables results exr run_id gen_run_id gen_uuid =
      Except.ok t) :
    ∀ row ∈ allRows t,
      alget row "RUN_ID" = Option.some (Val.str (run_id.getD gen_run_id)) := by
  have main :
      ∀ ds : List DocT, t = toTables ds →
        (∀ d ∈ ds,
          alget d.1 "RUN_ID" = Option.some (Val.str (run_id.getD gen_run_id)) ∧
          (∀ row ∈ d.2.1, alget row "RUN_ID" = Option.some (Val.str (run_id.getD gen_run_id))) ∧
          alget d.2.2.1 "RUN_ID" = Option.some (Val.str (run_id.getD gen_run_id)) ∧
          (∀ row ∈ d.2.2.2,
            alget row "RUN_ID" = Option.some (Val.str (run_id.getD gen_run_id)))) →
        ∀ row ∈ allRows t,
          alget row "RUN_ID" = Option.some (Val.str (run_id.getD gen_run_id)) := by
    intro ds ht hds row hrow
    subst ht
    simp only [allRows, toTables, List.mem_append] at hrow
    rcases hrow with ((h1 | h2) | h3) | h4
    · obtain ⟨d, hd, hrow⟩ := List.mem_map.mp h1
      rw [← hrow]
      exact (hds d hd).1
    · obtain ⟨d, hd, hrow⟩ := List.mem_flatMap.mp h2
      exact (hds d hd).2.1 row hrow
    · obtain ⟨d, hd, hrow⟩ := List.mem_map.mp h3
      rw [← hrow]
      exact (hds d hd).2.2.1
    · obtain ⟨d, hd, hrow⟩ := List.mem_flatMap.mp h4
      exact (hds d hd).2.2.2 row hrow
  cases results with
  | listV items =>
      simp only [create_invoice_summary_tables] at h
      cases hrb : runBatch (run_id.getD gen_run_id) gen_uuid 0 items with
      | error e => rw [hrb] at h; cases h
      | ok ds =>
          rw [hrb] at h
          cases h
          exact main ds rfl (runBatch_rows_runid (run_id.getD gen_run_id) gen_uuid items 0 ds hrb)
  | parseO pr =>
      cases exr with
      | none => cases h
      | some ex =>
          simp only [create_invoice_summary_tables, asParse] at h
          cases hd : processDoc (run_id.getD gen_run_id) (gen_uuid 0) pr (extractionOfAny ex) with
          | error e => rw [hd] at h; cases h
          | ok dt =>
              rw [hd] at h
              cases h
              refine main [dt] rfl ?_
              intro d hd2
              rcases List.mem_cons.mp hd2 with rfl | hd3
              · exact processDoc_rows_runid hd
              · cases hd3
  | extractO er =>
      cases exr with
      | none => cases h
      | some ex => simp only [create_invoice_summary_tables, asParse] at h; cases h
  | pairV a b =>
      cases exr with
      | none => cases h
      | some ex => simp only [create_invoice_summary_tables, asParse] at h; cases h
  | other =>
      cases exr with
      | none => cases h
      | some ex => simp only [create_invoice_summary_tables, asParse] at h; cases h

/-- Witness for C6: the caller supplied run identifier appears on the
markdown row of a concrete one document batch. -/
theorem c6_run_id_shared_by_all_rows_witness :
    alget (markdownRow "run-1" (exGu 0) exPr) "RUN_ID" = Option.some (Val.str "run-1") := by
  have h := c6_run_id_shared_by_all_rows (PyRes.listV [wfBatchItem (exPr, exEr)]) Option.none
    (Option.some "run-1") "g" exGu
    (okTables (create_invoice_summary_tables (PyRes.listV [wfBatchItem (exPr, exEr)])
      Option.none (Option.some "run-1") "g" exGu)) rfl
  exact h (markdownRow "run-1" (exGu 0) exPr) (List.Mem.head _)

lemma create_wf_tables (pairs : List (ParseResult × ExtractResult)) (exr : Option PyRes)
    (run_id : Option String) (gen_run_id : String) (gen_uuid : Nat → String)
    (hwf : ∀ pe ∈ pairs, (itemsOf pe.2).isSome) :
    create_invoice_summary_tables (PyRes.listV (pairs.map wfBatchItem)) exr
        run_id gen_run_id gen_uuid =
      Except.ok (toTables ((List.enumFrom 0 pairs).map fun q =>
        docT (run_id.getD gen_run_id) (gen_uuid q.1) q.2.1
          (extractionOfAny (PyRes.extractO q.2.2)) ((itemsOf q.2.2).getD []))) := by
  simp [create_invoice_summary_tables,
    runBatch_wf (run_id.getD gen_run_id) gen_uuid pairs hwf 0]

lemma alget_markdownRow_uuid (rid u : String) (pr : ParseResult) :
    alget (markdownRow rid u pr) "INVOICE_UUID" = Option.some (Val.str u) := rfl

lemma alget_mainRow_uuid (rid u : String) (dn av ex : Val) :
    alget (mainRow rid u dn av ex) "INVOICE_UUID" = Option.some (Val.str u) := rfl

lemma filterMap_always_some {α β : Type _} (f : α → β) :
    ∀ l : List α, (l.filterMap fun a => Option.some (f a)) = l.map f := by
  intro l
  induction l with
  | nil => rfl
  | cons a rest ih => simp [List.filterMap_cons, ih]

/-- C7: in a well formed batch call, each input document is assigned
the one freshly generated invoice identifier of its position, which
appears on all rows of that document in all four tables (the join
key); when the generated identifiers are pairwise distinct so are the
invoice identifiers of the call, and two calls whose generated
identifiers never collide share no invoice identifier. -/
theorem c7_invoice_ids_fresh_per_document (pairs : List (ParseResult × ExtractResult))
    (exr : Option PyRes) (run_id : Option String) (gen_run_id : String)
    (gen_uuid : Nat → String) (t : Tables)
    (hwf : ∀ pe ∈ pairs, (itemsOf pe.2).isSome)
    (h : create_invoice_summary_tables (PyRes.listV (pairs.map wfBatchItem)) exr
      run_id gen_run_id gen_uuid = Except.ok t) :
    (invoiceIds t = (List.range pairs.length).map fun i => Val.str (gen_uuid i)) ∧
    (t.main_df.filterMap (fun r => alget r "INVOICE_UUID") =
      (List.range pairs.length).map fun i => Val.str (gen_uuid i)) ∧
    (t.chunks_df = (List.enumFrom 0 pairs).flatMap fun q =>
      q.2.1.chunks.map
        (chunkRow (run_id.getD gen_run_id) (gen_uuid q.1) (docName q.2.1))) ∧
    (∀ (rid u : String) (dn : Val) (c : Chunk),
      alget (chunkRow rid u dn c) "INVOICE_UUID" = Option.some (Val.str u)) ∧
    (t.line_items_df = (List.enumFrom 0 pairs).flatMap fun q =>
      (((itemsOf q.2.2).getD []).enum).map fun p =>
        lineItemRow (run_id.getD gen_run_id) (gen_uuid q.1) (docName q.2.1)
          (docVersion q.2.1) p.1 p.2) ∧
    (∀ (rid u : String) (dn av : Val) (idx : Nat) (item : Val),
      alget (lineItemRow rid u dn av idx item) "INVOICE_UUID" = Option.some (Val.str u)) ∧
    (List.Pairwise (fun a b => a ≠ b) ((List.range pairs.length).map gen_uuid) →
      List.Pairwise (fun a b => a ≠ b) (invoiceIds t)) ∧
    (∀ (pairs2 : List (ParseResult × ExtractResult)) (exr2 : Option PyRes)
      (run2 : Option String) (gen2 : String) (gu2 : Nat → String) (t2 : Tables),
      (∀ pe ∈ pairs2, (itemsOf pe.2).isSome) →
      create_invoice_summary_tables (PyRes.listV (pairs2.map wfBatchItem)) exr2
        run2 gen2 gu2 = Except.ok t2 →
      (∀ i j, gen_uuid i ≠ gu2 j) →
      ∀ x ∈ invoiceIds t, x ∉ invoiceIds t2) := by
  have hsh := create_wf_tables pairs exr run_id gen_run_id gen_uuid hwf
  rw [h] at hsh
  have ht : t = toTables ((List.enumFrom 0 pairs).map fun q =>
      docT (run_id.getD gen_run_id) (gen_uuid q.1) q.2.1
        (extractionOfAny (PyRes.extractO q.2.2)) ((itemsOf q.2.2).getD [])) :=
    Except.ok.inj hsh
  have hids : ∀ (rid : String) (gu : Nat → String)
      (qairs : List (ParseResult × ExtractResult)),
      invoiceIds (toTables ((List.enumFrom 0 qairs).map fun q =>
        docT rid (gu q.1) q.2.1 (extractionOfAny (PyRes.extractO q.2.2))
          ((itemsOf q.2.2).getD []))) =
        (List.range qairs.length).map fun i => Val.str (gu i) := by
    intro rid gu qairs
    simp only [invoiceIds, toTables, List.map_map]
    rw [show ((fun d : DocT => d.1) ∘ fun q : Nat × (ParseResult × ExtractResult) =>
      docT rid (gu q.1) q.2.1 (extractionOfAny (PyRes.extractO q.2.2))
        ((itemsOf q.2.2).getD [])) = fun q : Nat × (ParseResult × ExtractResult) =>
      markdownRow rid (gu q.1) q.2.1 from rfl]
    simp only [List.filterMap_map, Function.comp_def, alget_markdownRow_uuid]
    rw [filterMap_always_some (fun q : Nat × (ParseResult × ExtractResult) =>
      Val.str (gu q.1))]
    rw [enumFrom_map_fst_fun (fun i => Val.str (gu i)) qairs 0, List.range_eq_range']
  have hids_t : invoiceIds t =
      (List.range pairs.length).map fun i => Val.str (gen_uuid i) := by
    rw [ht, hids]
  refine ⟨hids_t, ?_, ?_, fun rid u dn c => rfl, ?_, fun rid u dn av idx item => rfl, ?_, ?_⟩
  · rw [ht]
    simp only [toTables, List.map_map]
    rw [show ((fun d : DocT => d.2.2.1) ∘ fun q : Nat × (ParseResult × ExtractResult) =>
      docT (run_id.getD gen_run_id) (gen_uuid q.1) q.2.1
        (extractionOfAny (PyRes.extractO q.2.2)) ((itemsOf q.2.2).getD [])) =
      fun q : Nat × (ParseResult × ExtractResult) =>
        mainRow (run_id.getD gen_run_id) (gen_uuid q.1) (docName q.2.1) (docVersion q.2.1)
          (extractionOfAny (PyRes.extractO q.2.2)) from rfl]
    simp only [List.filterMap_map, Function.comp_def, alget_mainRow_uuid]
    rw [filterMap_always_some (fun q : Nat × (ParseResult × ExtractResult) =>
      Val.str (gen_uuid q.1))]
    rw [enumFrom_map_fst_fun (fun i => Val.str (gen_uuid i)) pairs 0, List.range_eq_range']
  · rw [ht]
    simp [toTables, docT, List.flatMap_map, Function.comp_def]
  · rw [ht]
    simp [toTables, docT, List.flatMap_map, Function.comp_def]
  · intro hp
    rw [hids_t, show (fun i => Val.str (gen_uuid i)) = Val.str ∘ gen_uuid from rfl,
      ← List.map_map]
    exact List.Pairwise.map Val.str
      (fun a b hab hfe => hab (by injection hfe)) hp
  · intro pairs2 exr2 run2 gen2 gu2 t2 hwf2 h2 hdisj x hx hx2
    have hsh2 := create_wf_tables pairs2 exr2 run2 gen2 gu2 hwf2
    rw [h2] at hsh2
    have ht2 := Except.ok.inj hsh2
    rw [hids_t] at hx
    rw [ht2, hids] at hx2
    obtain ⟨i, _, hi⟩ := List.mem_map.mp hx
    obtain ⟨j, _, hj⟩ := List.mem_map.mp hx2
    rw [← hi] at hj
    injection hj with hh
    exact hdisj i j hh.symm

/-- Witness for C7: a two document batch whose generated invoice
identifiers are `"uuid-a"` and `"uuid-b"`; the identifiers read back
off the tables are exactly these and are pairwise distinct. -/
theorem c7_invoice_ids_fresh_per_document_witness :
    invoiceIds (okTables (create_invoice_summary_tables
        (PyRes.listV [wfBatchItem (exPr, exEr), wfBatchItem (cexPr, exErItems)])
        Option.none Option.none "g" exGu)) = [Val.str "uuid-a", Val.str "uuid-b"] ∧
    List.Pairwise (fun a b => a ≠ b)
      (invoiceIds (okTables (create_invoice_summary_tables
        (PyRes.listV [wfBatchItem (exPr, exEr), wfBatchItem (cexPr, exErItems)])
        Option.none Option.none "g" exGu))) := by
  have hwf : ∀ pe ∈ [(exPr, exEr), (cexPr, exErItems)], (itemsOf pe.2).isSome := by
    intro pe hpe
    rcases List.mem_cons.mp hpe with h | hpe2
    · rw [h]; rfl
    · rcases List.mem_cons.mp hpe2 with h | h2
      · rw [h]; rfl
      · cases h2
  obtain ⟨h1, _, _, _, _, _, h7, _⟩ := c7_invoice_ids_fresh_per_document
    [(exPr, exEr), (cexPr, exErItems)] Option.none Option.none "g" exGu
    (okTables (create_invoice_summary_tables
      (PyRes.listV [wfBatchItem (exPr, exEr), wfBatchItem (cexPr, exErItems)])
      Option.none Option.none "g" exGu)) hwf rfl
  refine ⟨by rw [h1]; rfl, h7 (by decide)⟩

lemma runBatch_error_of_bad_item (rid : String) (gu : Nat → String) :
    ∀ (items : List PyRes) (i : Nat),
      (∃ item ∈ items, ∃ e, unpack2 item = Except.error e) →
      ∃ e2, runBatch rid gu i items = Except.error e2 := by
  intro items
  induction items with
  | nil =>
      intro i h
      obtain ⟨item, hm, _⟩ := h
      cases hm
  | cons a rest ih =>
      intro i h
      obtain ⟨item, hm, e, he⟩ := h
      rcases List.mem_cons.mp hm with rfl | hmem
      · exact ⟨e, by rw [runBatch, he]⟩
      · cases hu : unpack2 a with
        | error e1 => exact ⟨e1, by rw [runBatch, hu]⟩
        | ok pe =>
            cases hp : asParse pe.1 with
            | error e1 => exact ⟨e1, by rw [runBatch, hu]; dsimp only; rw [hp]⟩
            | ok pr =>
                cases hd : processDoc rid (gu i) pr (extractionOfAny pe.2) with
                | error e1 =>
                    exact ⟨e1, by rw [runBatch, hu]; dsimp only; rw [hp]; dsimp only; rw [hd]⟩
                | ok dt =>
                    obtain ⟨e2, he2⟩ := ih (i + 1) ⟨item, hmem, e, he⟩
                    exact ⟨e2, by
                      rw [runBatch, hu]
                      dsimp only
                      rw [hp]
                      dsimp only
                      rw [hd]
                      dsimp only
                      rw [he2]⟩

/-- C8: a malformed argument, one that supplies neither a pair (a
non-list first argument together with an extract result) nor a
sequence of pairs (a list whose elements all unpack as pairs), makes
the call fail before producing any table. -/
theorem c8_malformed_argument_fails (results : PyRes) (exr : Option PyRes)
    (run_id : Option String) (gen_run_id : String) (gen_uuid : Nat → String)
    (h : malformedArg results exr) :
    isOkT (create_invoice_summary_tables results exr run_id gen_run_id gen_uuid) = false := by
  rcases h with ⟨hnl, hex⟩ | ⟨hnl, hnp, hex⟩ | ⟨xs, hxs, hbad⟩
  · subst hex
    cases results with
    | listV items => exact absurd rfl (hnl items)
    | parseO pr => rfl
    | extractO er => rfl
    | pairV a b => rfl
    | other => rfl
  · cases hx : exr with
    | none => exact absurd hx hex
    | some ex =>
        subst hx
        cases results with
        | listV items => exact absurd rfl (hnl items)
        | parseO pr => exact absurd rfl (hnp pr)
        | extractO er => rfl
        | pairV a b => rfl
        | other => rfl
  · subst hxs
    obtain ⟨e2, he2⟩ :=
      runBatch_error_of_bad_item (run_id.getD gen_run_id) gen_uuid xs 0 hbad
    simp [create_invoice_summary_tables, isOkT, he2]

/-- Witness for C8: a bare non-list object with no extract result, and
a list containing a non-pair element, both fail. -/
theorem c8_malformed_argument_fails_witness :
    isOkT (create_invoice_summary_tables PyRes.other Option.none
      Option.none "g" exGu) = false ∧
    isOkT (create_invoice_summary_tables (PyRes.listV [PyRes.other]) Option.none
      Option.none "g" exGu) = false := by
  constructor
  · exact c8_malformed_argument_fails PyRes.other Option.none Option.none "g" exGu
      (Or.inl ⟨fun _ hc => PyRes.noConfusion hc, rfl⟩)
  · exact c8_malformed_argument_fails (PyRes.listV [PyRes.other]) Option.none
      Option.none "g" exGu
      (Or.inr (Or.inr ⟨[PyRes.other], rfl,
        ⟨PyRes.other, List.Mem.head _, PErr.typeError, rfl⟩⟩))

end Ade
